import Mathlib

/-!
Shallow embedding of the kirogpt message-handling pipeline.

Source of truth: `src/src/main.rs` (functions `handle_event`, `handle_message`,
`get_mongo_client`) and `src/src/lib.rs` (the data types).  Text is modelled as
`List Char`; Rust `String::replace` (replace all non-overlapping occurrences,
leftmost first) is `replaceAll`; Rust `str::contains` is `containsSub`; Rust
`split_whitespace` is `splitWs` (whitespace restricted to the ASCII whitespace
characters, the only ones the claims exercise).  External I/O (Discord sends,
the completion HTTP call, MongoDB reads and writes) is modelled as a trace of
`Effect` values, with an `Env` oracle supplying the outcomes of the fallible
external calls.  Network sends, MongoDB connections and store writes are
modelled as succeeding; the completion call may fail at transport or decode
level through `Env.transportOk` / `Env.decodeOk`, the two failure modes the
claims are about.
-/

/-- Field `message.role` / `message.content` of `Message` in `src/src/lib.rs`. -/
structure Message where
  role : List Char
  content : List Char
deriving DecidableEq, Repr

/-- `ChatDocument` in `src/src/lib.rs`: the stored conversation document,
keyed by the string field `id` (the anchor id). -/
structure ChatDocument where
  id : List Char
  messages : List Message
deriving DecidableEq, Repr

/-- `PromptDocument` in `src/src/lib.rs`. -/
structure PromptDocument where
  prompt_id : List Char
  prompt : List Char
deriving DecidableEq, Repr

/-- `Choice` in `src/src/lib.rs`. -/
structure Choice where
  index : Int
  message : Message
  finish_reason : List Char
deriving DecidableEq, Repr

/-- `Usage` in `src/src/lib.rs`. -/
structure Usage where
  prompt_tokens : Int
  completion_tokens : Int
  total_tokens : Int
deriving DecidableEq, Repr

/-- `ChatCompletionResponse` in `src/src/lib.rs`. -/
structure ChatCompletionResponse where
  id : List Char
  object : List Char
  created : Int
  choices : List Choice
  usage : Usage
deriving DecidableEq, Repr

/-- `AppData` in `src/src/lib.rs`. -/
structure AppData where
  username : List Char
  bot_id : Nat
  all_prompts : List PromptDocument
deriving DecidableEq, Repr

/-- The referenced (replied-to) message of a Discord message: the fields of
`message.referenced_message` that `handle_event` reads (`id`, `author.id`). -/
structure RefMessage where
  id : Nat
  author_id : Nat
deriving DecidableEq, Repr

/-- The fields of a `MessageCreate` event that the pipeline reads. -/
structure IncomingMessage where
  id : Nat
  channel_id : Nat
  author_id : Nat
  content : List Char
  mentions : List Nat
  referenced_message : Option RefMessage
deriving DecidableEq, Repr

/-- Observable external effects of a pipeline run, in program order. -/
inductive Effect where
  | registryCheck (id : Nat) (found : Bool)
  | registryInsert (id : Nat)
  | registryRemove (id : Nat)
  | sendMessage (channelId : Nat) (content : List Char)
  | sendReply (channelId : Nat) (content : List Char) (replyTo : Nat)
  | scheduleDelete (channelId : Nat) (msgId : Nat) (delaySecs : Nat)
  | startKeepalive (channelId : Nat)
  | completionCall (model : List Char) (messages : List Message)
  | setStopFlag
  | insertDoc (doc : ChatDocument)
  | updateDoc (matchId : List Char) (doc : ChatDocument)
deriving DecidableEq, Repr

/-- Outcome of a pipeline run: models `Result<(), Box<dyn Error + Send + Sync>>`
with the error rendered as its message string. -/
inductive Outcome where
  | ok
  | error (e : List Char)
deriving DecidableEq, Repr

/-- Oracle for the fallible external calls of one pipeline run. -/
structure Env where
  gptTokenOk : Bool
  transportOk : Bool
  decodeOk : Bool
  response : ChatCompletionResponse
  botMsgId : Nat
  warnMsgId : Nat
deriving DecidableEq, Repr

/-- Result of a run: the effect trace, the final in-flight registry
(`processing` vector), the final keepalive stop flag, and the outcome. -/
structure RunResult where
  effects : List Effect
  registry : List Nat
  stopFlag : Bool
  outcome : Outcome
deriving DecidableEq, Repr

/-- ASCII whitespace, the fragment of Rust `char::is_whitespace` the claims
exercise. -/
def isWs (c : Char) : Bool :=
  c = ' ' || c = '\t' || c = '\n' || c = '\r'

/-- Fuel-driven worker for `replaceAll`.  With fuel at least the length of the
input it replaces every non-overlapping occurrence of `pat`, leftmost first,
by `rep`, exactly like Rust `str::replace`.  The `pat.isEmpty` guard is never
hit by this program (all patterns are nonempty literals). -/
def replaceGo (pat rep : List Char) : Nat → List Char → List Char
  | _, [] => []
  | 0, s => s
  | fuel + 1, c :: cs =>
    if pat.isPrefixOf (c :: cs) && !pat.isEmpty then
      rep ++ replaceGo pat rep fuel (List.drop (pat.length - 1) cs)
    else
      c :: replaceGo pat rep fuel cs

/-- Rust `String::replace(pat, rep)` on `s`. -/
def replaceAll (pat rep s : List Char) : List Char :=
  replaceGo pat rep s.length s

/-- Rust `str::contains(pat)`: `pat` occurs as a contiguous substring of `s`. -/
def containsSub (pat : List Char) : List Char → Bool
  | [] => pat.isPrefixOf []
  | c :: cs => pat.isPrefixOf (c :: cs) || containsSub pat cs

/-- Accumulator worker for `splitWs`. -/
def splitWsAux : List Char → List Char → List (List Char)
  | [], acc => if acc.isEmpty then [] else [acc.reverse]
  | c :: cs, acc =>
    if isWs c then
      if acc.isEmpty then splitWsAux cs [] else acc.reverse :: splitWsAux cs []
    else
      splitWsAux cs (c :: acc)

/-- Rust `str::split_whitespace` collected to a list: maximal runs of
non-whitespace characters, empty tokens skipped. -/
def splitWs (s : List Char) : List (List Char) :=
  splitWsAux s []

/-- Decimal rendering of a numeric id, modelling Rust `u64::to_string`. -/
def natToStr (n : Nat) : List Char :=
  Nat.toDigits 10 n

/-- The literal Discord mention token of the bot, `format!("<@{}>", bot_id)`
in `handle_message` (src/src/main.rs line 273). -/
def mentionTok (botId : Nat) : List Char :=
  '<' :: '@' :: (natToStr botId ++ ">".data)

def commaSpaceTok : List Char := ", ".data

def expertTok : List Char := "!expert".data

def jbTok : List Char := "!jb".data

def uwuTok : List Char := "!uwu".data

def quoteTok : List Char := "\"".data

def spaceTok : List Char := " ".data

def firstNameTok : List Char := "{FIRST_NAME}".data

def fullNameTok : List Char := "{FULL_NAME}".data

def lastNameTok : List Char := "{LAST_NAME}".data

def nameTok : List Char := "{NAME}".data

def expertId : List Char := "expert".data

def jbId : List Char := "jb".data

def uwuId : List Char := "uwu".data

def userRole : List Char := "user".data

def assistantRole : List Char := "assistant".data

def modelName : List Char := "gpt-3.5-turbo".data

def needNameText : List Char := "You need to provide a name.".data

def pongText : List Char := "Pong!".data

def pingTok : List Char := "!ping".data

def gptTokenErr : List Char := "environment variable not found".data

def noExpertErr : List Char := "No expert prompt".data

def noJbErr : List Char := "No jb prompt".data

def noUwuErr : List Char := "No uwu prompt".data

def noLastArgErr : List Char := "No last argument".data

def transportErr : List Char := "request error".data

def decodeErr : List Char := "decode error".data

def noResponseErr : List Char := "No response".data

/-- Outcome of the text-templating part of `handle_message`
(src/src/main.rs lines 271 to 350). -/
inductive TemplateResult where
  | ok (text : List Char)
  | needName
  | err (e : List Char)
deriving DecidableEq, Repr

/-- The name built in the quoted-`!uwu` branch (src/src/main.rs lines 315 to
320): quote characters stripped from the last argument, the result re-split on
whitespace and re-joined with single spaces. -/
def uwuName (lastArg : List Char) : List Char :=
  List.intercalate spaceTok (splitWs (replaceAll quoteTok [] lastArg))

/-- The in-line text templating of `handle_message` (src/src/main.rs lines 271
to 350): strip the bot mention, strip every comma-space, look up the three
required prompts (an absent one is an early `Err` return), expand `!expert`
then `!jb`, then handle `!uwu`: on a quoted last whitespace token expand the
uwu snippet with the recovered name, otherwise take the warning-reply path
(`needName`). -/
def runTemplate (botId : Nat) (prompts : List PromptDocument)
    (content : List Char) : TemplateResult :=
  let um0 := replaceAll (mentionTok botId) [] content
  let um1 := replaceAll commaSpaceTok [] um0
  match prompts.find? (fun p => p.prompt_id == expertId) with
  | none => .err noExpertErr
  | some expertP =>
    match prompts.find? (fun p => p.prompt_id == jbId) with
    | none => .err noJbErr
    | some jbP =>
      match prompts.find? (fun p => p.prompt_id == uwuId) with
      | none => .err noUwuErr
      | some uwuP =>
        let um2 := replaceAll expertTok expertP.prompt um1
        let um3 := replaceAll jbTok jbP.prompt um2
        if containsSub uwuTok um3 then
          match (splitWs um3).getLast? with
          | none => .err noLastArgErr
          | some lastArg =>
            if containsSub quoteTok lastArg then
              let name := uwuName lastArg
              let u0 := replaceAll firstNameTok nameTok uwuP.prompt
              let u1 := replaceAll fullNameTok nameTok u0
              let u2 := replaceAll lastNameTok nameTok u1
              let u3 := replaceAll nameTok name u2
              .ok (replaceAll uwuTok u3 um3)
            else
              .needName
        else
          .ok um3

/-- The prior history flattened to a message list
(src/src/main.rs lines 263 to 267). -/
def histMessages : Option (List ChatDocument) → List Message
  | some h => (h.map ChatDocument.messages).flatten
  | none => []

/-- `handle_message` (src/src/main.rs lines 233 to 465).  In program order:
read the GPT token (an absent token is an early error), flatten the prior
history, run the in-line templating (`runTemplate`), on the warning path send
the self-deleting warning and return `Ok`, otherwise append the user turn,
push the message id onto the `processing` vector, spawn the keepalive task,
issue the completion call (a transport failure propagates BEFORE the stop
flag is stored and BEFORE the id is removed from `processing`), store the
stop flag, retain-out the id, decode the response (a decode failure
propagates here), take the last choice, send the bot reply, append the
assistant turn, then insert the document when there was no history and update
the document matched by `reply_id` when one was given. -/
def handle_message (msg : IncomingMessage) (app : AppData)
    (registry : List Nat) (history : Option (List ChatDocument))
    (replyId : Option (List Char)) (env : Env) : RunResult :=
  if env.gptTokenOk = false then
    ⟨[], registry, false, .error gptTokenErr⟩
  else
    match runTemplate app.bot_id app.all_prompts msg.content with
    | .err e => ⟨[], registry, false, .error e⟩
    | .needName =>
      ⟨[Effect.sendReply msg.channel_id needNameText msg.id,
        Effect.scheduleDelete msg.channel_id env.warnMsgId 5],
       registry, false, .ok⟩
    | .ok templated =>
      let outgoing := histMessages history ++ [⟨userRole, templated⟩]
      if env.transportOk = false then
        ⟨[Effect.registryInsert msg.id, Effect.startKeepalive msg.channel_id,
          Effect.completionCall modelName outgoing],
         registry ++ [msg.id], false, .error transportErr⟩
      else if env.decodeOk = false then
        ⟨[Effect.registryInsert msg.id, Effect.startKeepalive msg.channel_id,
          Effect.completionCall modelName outgoing, Effect.setStopFlag,
          Effect.registryRemove msg.id],
         (registry ++ [msg.id]).filter (fun i => i != msg.id),
         true, .error decodeErr⟩
      else
        match (env.response.choices).getLast? with
        | none =>
          ⟨[Effect.registryInsert msg.id, Effect.startKeepalive msg.channel_id,
            Effect.completionCall modelName outgoing, Effect.setStopFlag,
            Effect.registryRemove msg.id],
           (registry ++ [msg.id]).filter (fun i => i != msg.id),
           true, .error noResponseErr⟩
        | some choice =>
          let outgoing2 := outgoing ++ [⟨assistantRole, choice.message.content⟩]
          let doc : ChatDocument := ⟨natToStr env.botMsgId, outgoing2⟩
          ⟨[Effect.registryInsert msg.id, Effect.startKeepalive msg.channel_id,
            Effect.completionCall modelName outgoing, Effect.setStopFlag,
            Effect.registryRemove msg.id,
            Effect.sendReply msg.channel_id choice.message.content msg.id]
           ++ (if history.isNone then [Effect.insertDoc doc] else [])
           ++ (match replyId with
               | some rid => [Effect.updateDoc rid doc]
               | none => []),
           (registry ++ [msg.id]).filter (fun i => i != msg.id),
           true, .ok⟩

/-- The `MessageCreate` arm of `handle_event` (src/src/main.rs lines 108 to
214).  `store` is the `messages` collection of the document store; the mongo
connection is modelled as succeeding.  When the message is a reply to a bot
message: check (only check) membership of the REFERENCED message id in the
`processing` vector, return silently when present, fetch the conversation
documents whose `id` equals the referenced id, return silently when none, and
otherwise run `handle_message` with the history and the referenced id.  When
the bot is mentioned: run `handle_message` with no history.  Otherwise answer
the literal `!ping` and ignore everything else. -/
def handle_event (msg : IncomingMessage) (app : AppData)
    (registry : List Nat) (store : List ChatDocument) (env : Env) :
    RunResult :=
  let reply := msg.referenced_message.bind
    (fun m => if m.author_id == app.bot_id then some m else none)
  match reply with
  | some r =>
    let found := registry.contains r.id
    if found then
      ⟨[Effect.registryCheck r.id found], registry, false, .ok⟩
    else
      let history := store.filter (fun d => d.id == natToStr r.id)
      if history.isEmpty then
        ⟨[Effect.registryCheck r.id found], registry, false, .ok⟩
      else
        let hm := handle_message msg app registry (some history)
          (some (natToStr r.id)) env
        ⟨Effect.registryCheck r.id found :: hm.effects,
         hm.registry, hm.stopFlag, hm.outcome⟩
  | none =>
    if msg.mentions.contains app.bot_id then
      handle_message msg app registry none none env
    else if msg.content == pingTok then
      ⟨[Effect.sendMessage msg.channel_id pongText], registry, false, .ok⟩
    else
      ⟨[], registry, false, .ok⟩

/-- Effect classifiers used to state the claims. -/
def Effect.isRegistryCheck : Effect → Bool
  | .registryCheck _ _ => true
  | _ => false

def Effect.isRegistryInsert : Effect → Bool
  | .registryInsert _ => true
  | _ => false

def Effect.isRegistryRemove : Effect → Bool
  | .registryRemove _ => true
  | _ => false

def Effect.isCompletionCall : Effect → Bool
  | .completionCall _ _ => true
  | _ => false

def Effect.isInsertDoc : Effect → Bool
  | .insertDoc _ => true
  | _ => false

def Effect.isUpdateDoc : Effect → Bool
  | .updateDoc _ _ => true
  | _ => false

def Effect.isSend : Effect → Bool
  | .sendMessage _ _ => true
  | .sendReply _ _ _ => true
  | _ => false

/-- Concrete prompt snapshot with the three required snippets. -/
def prompts3 : List PromptDocument :=
  [⟨expertId, "E".data⟩, ⟨jbId, "J".data⟩, ⟨uwuId, "U".data⟩]

/-- Prompt snapshot whose uwu snippet is the three-placeholder greeting of
the spec example. -/
def promptsC3 : List PromptDocument :=
  [⟨expertId, "E".data⟩, ⟨jbId, "J".data⟩,
   ⟨uwuId, "Hi {FIRST_NAME}/{FULL_NAME}/{LAST_NAME}".data⟩]

/-- Prompt snapshot missing the required uwu snippet. -/
def promptsNoUwu : List PromptDocument :=
  [⟨expertId, "E".data⟩, ⟨jbId, "J".data⟩]

/-- Concrete app data: bot id 5, the three snippets loaded. -/
def app5 : AppData := ⟨"kiro".data, 5, prompts3⟩

/-- App data whose loaded snapshot is missing the uwu snippet. -/
def appNoUwu : AppData := ⟨"kiro".data, 5, promptsNoUwu⟩

/-- A single completion choice whose assistant message is `ok`. -/
def okChoice : Choice := ⟨0, ⟨assistantRole, "ok".data⟩, "stop".data⟩

/-- Environment where every external call succeeds; the created bot reply
gets id 9 and the warning reply gets id 7. -/
def env0 : Env :=
  ⟨true, true, true,
   ⟨"r".data, "c".data, 0, [okChoice], ⟨0, 0, 0⟩⟩, 9, 7⟩

/-- Environment where the completion call fails at the transport level. -/
def envTransportFail : Env :=
  ⟨true, false, true,
   ⟨"r".data, "c".data, 0, [okChoice], ⟨0, 0, 0⟩⟩, 9, 7⟩

/-- Store holding one conversation anchored at bot message id 1. -/
def store1 : List ChatDocument :=
  [⟨"1".data, [⟨userRole, "a".data⟩, ⟨assistantRole, "b".data⟩]⟩]

/-- A CONTINUATION event: message id 2 in channel 3 replying to bot
message id 1 (the bot id is 5). -/
def contEvent : IncomingMessage :=
  ⟨2, 3, 4, "hello".data, [], some ⟨1, 5⟩⟩

/-- A NEW event: message id 2 in channel 3 mentioning the bot (id 5). -/
def newEvent : IncomingMessage :=
  ⟨2, 3, 4, "hi".data, [5], none⟩

/-- A NEW event whose content holds a `!uwu` whose raw last token `b` has no
quote character, while comma-space removal merges a quoted token into the
last token. -/
def c5Event : IncomingMessage :=
  ⟨2, 3, 4, "!uwu \"a\", b".data, [5], none⟩

/-- A NEW event with a malformed `!uwu` (no quote anywhere). -/
def uwuBadEvent : IncomingMessage :=
  ⟨2, 3, 4, "!uwu test".data, [5], none⟩

theorem replaceGo_of_not_contains (pat rep : List Char) (fuel : Nat) :
    ∀ s : List Char, containsSub pat s = false → replaceGo pat rep fuel s = s := by
  induction fuel with
  | zero => intro s _; cases s <;> rfl
  | succ n ih =>
    intro s h
    cases s with
    | nil => rfl
    | cons c cs =>
      rw [containsSub, Bool.or_eq_false_iff] at h
      rw [replaceGo, h.1]
      simp only [Bool.false_and, Bool.false_eq_true, if_false]
      rw [ih cs h.2]

theorem replaceAll_of_not_contains (pat rep s : List Char)
    (h : containsSub pat s = false) : replaceAll pat rep s = s :=
  replaceGo_of_not_contains pat rep s.length s h

theorem mem_of_mem_replaceGo_nil (pat : List Char) (fuel : Nat) :
    ∀ (s : List Char) (c : Char), c ∈ replaceGo pat [] fuel s → c ∈ s := by
  induction fuel with
  | zero =>
    intro s c h
    cases s with
    | nil => simp [replaceGo] at h
    | cons a as => exact h
  | succ n ih =>
    intro s c h
    cases s with
    | nil => simp [replaceGo] at h
    | cons a as =>
      rw [replaceGo] at h
      by_cases hp : (pat.isPrefixOf (a :: as) && !pat.isEmpty) = true
      · rw [if_pos hp] at h
        rw [List.nil_append] at h
        exact List.mem_cons_of_mem a (List.drop_subset _ _ (ih _ _ h))
      · rw [if_neg hp] at h
        rcases List.mem_cons.mp h with rfl | hm
        · exact List.mem_cons_self _ _
        · exact List.mem_cons_of_mem a (ih _ _ hm)

theorem mem_of_mem_replaceAll_nil (pat s : List Char) (c : Char)
    (h : c ∈ replaceAll pat [] s) : c ∈ s :=
  mem_of_mem_replaceGo_nil pat s.length s c h

theorem ne_of_mem_replaceGo_quote (q : Char) (fuel : Nat) :
    ∀ s : List Char, s.length ≤ fuel →
      ∀ c ∈ replaceGo [q] [] fuel s, ¬ c = q := by
  induction fuel with
  | zero =>
    intro s hs c hc _
    have : s = [] := List.length_eq_zero.mp (Nat.le_zero.mp hs)
    subst this
    simp [replaceGo] at hc
  | succ n ih =>
    intro s hs c hc
    cases s with
    | nil => simp [replaceGo] at hc
    | cons a as =>
      have has : as.length ≤ n := Nat.le_of_succ_le_succ hs
      rw [replaceGo] at hc
      by_cases hq : q = a
      · subst hq
        have hguard : ([q].isPrefixOf (q :: as) && !(List.isEmpty [q])) = true := by
          simp [List.isPrefixOf]
        rw [if_pos hguard, List.nil_append] at hc
        exact ih as has c (by simpa using hc)
      · have hguard : ([q].isPrefixOf (a :: as) && !(List.isEmpty [q])) = false := by
          simp [List.isPrefixOf, hq]
        rw [hguard] at hc
        simp only [Bool.false_eq_true, if_false] at hc
        rcases List.mem_cons.mp hc with rfl | hm
        · exact fun e => hq e.symm
        · exact ih as has c hm

theorem not_containsSub_of_head_notMem (a : Char) (r : List Char) :
    ∀ s : List Char, a ∉ s → containsSub (a :: r) s = false := by
  intro s
  induction s with
  | nil => intro _; rfl
  | cons c cs ih =>
    intro h
    have hac : (a == c) = false := by
      simp only [beq_eq_false_iff_ne, ne_eq]
      intro e
      exact h (e ▸ List.mem_cons_self c cs)
    rw [containsSub, Bool.or_eq_false_iff]
    constructor
    · show List.isPrefixOf (a :: r) (c :: cs) = false
      rw [List.isPrefixOf, hac, Bool.false_and]
    · exact ih (fun hm => h (List.mem_cons_of_mem _ hm))

theorem containsSub_singleton_eq_false (q : Char) :
    ∀ s : List Char, (∀ c ∈ s, ¬ c = q) → containsSub [q] s = false := by
  intro s
  induction s with
  | nil => intro _; rfl
  | cons c cs ih =>
    intro h
    have hqc : (q == c) = false := by
      simp only [beq_eq_false_iff_ne, ne_eq]
      intro e
      exact h c (List.mem_cons_self c cs) e.symm
    rw [containsSub, Bool.or_eq_false_iff]
    constructor
    · show List.isPrefixOf [q] (c :: cs) = false
      rw [List.isPrefixOf, hqc, Bool.false_and]
    · exact ih (fun d hd => h d (List.mem_cons_of_mem _ hd))

theorem no_ws_of_mem_splitWsAux :
    ∀ (s acc : List Char), (∀ c ∈ acc, isWs c = false) →
      ∀ tok ∈ splitWsAux s acc, ∀ c ∈ tok, isWs c = false := by
  intro s
  induction s with
  | nil =>
    intro acc hacc tok htok c hc
    rw [splitWsAux] at htok
    by_cases he : acc.isEmpty = true
    · simp [he] at htok
    · simp only [he, Bool.false_eq_true, if_false, List.mem_singleton] at htok
      subst htok
      exact hacc c (List.mem_reverse.mp hc)
  | cons a as ih =>
    intro acc hacc tok htok c hc
    rw [splitWsAux] at htok
    by_cases hw : isWs a = true
    · simp only [hw, if_true] at htok
      by_cases he : acc.isEmpty = true
      · simp only [he, if_true] at htok
        exact ih [] (by simp) tok htok c hc
      · simp only [he, Bool.false_eq_true, if_false, List.mem_cons] at htok
        rcases htok with rfl | htok
        · exact hacc c (List.mem_reverse.mp hc)
        · exact ih [] (by simp) tok htok c hc
    · simp only [hw, Bool.false_eq_true, if_false] at htok
      refine ih (a :: acc) ?_ tok htok c hc
      intro d hd
      rcases List.mem_cons.mp hd with rfl | hd
      · exact Bool.eq_false_iff.mpr hw
      · exact hacc d hd

theorem no_ws_of_mem_splitWs (s : List Char) (tok : List Char)
    (htok : tok ∈ splitWs s) : ∀ c ∈ tok, isWs c = false :=
  no_ws_of_mem_splitWsAux s [] (by simp) tok htok

theorem splitWsAux_no_ws :
    ∀ (s acc : List Char), acc ≠ [] → (∀ c ∈ s, isWs c = false) →
      splitWsAux s acc = [acc.reverse ++ s] := by
  intro s
  induction s with
  | nil =>
    intro acc hacc _
    rw [splitWsAux]
    simp [List.isEmpty_eq_true, hacc]
  | cons a as ih =>
    intro acc hacc hs
    have hw : isWs a = false := hs a (List.mem_cons_self _ _)
    rw [splitWsAux]
    simp only [hw, Bool.false_eq_true, if_false]
    rw [ih (a :: acc) (by simp) (fun c hc => hs c (List.mem_cons_of_mem _ hc))]
    simp

theorem splitWs_no_ws (s : List Char) (h : ∀ c ∈ s, isWs c = false) :
    splitWs s = if s.isEmpty then [] else [s] := by
  cases s with
  | nil => rfl
  | cons a as =>
    have hw : isWs a = false := h a (List.mem_cons_self _ _)
    rw [splitWs, splitWsAux]
    simp only [hw, Bool.false_eq_true, if_false, List.isEmpty_cons]
    rw [splitWsAux_no_ws as [a] (by simp)
      (fun c hc => h c (List.mem_cons_of_mem _ hc))]
    simp

theorem uwuName_eq_strip (l : List Char) (hl : ∀ c ∈ l, isWs c = false) :
    uwuName l = replaceAll quoteTok [] l := by
  have hsub : ∀ c ∈ replaceAll quoteTok [] l, isWs c = false :=
    fun c hc => hl c (mem_of_mem_replaceAll_nil _ _ _ hc)
  rw [uwuName, splitWs_no_ws _ hsub]
  by_cases he : (replaceAll quoteTok [] l).isEmpty = true
  · rw [if_pos he]
    rw [List.isEmpty_eq_true] at he
    rw [he]
    rfl
  · rw [if_neg he]
    simp [List.intercalate]

theorem runTemplate_missing_prompt (botId : Nat) (prompts : List PromptDocument)
    (content : List Char)
    (h : prompts.find? (fun p => p.prompt_id == expertId) = none
       ∨ prompts.find? (fun p => p.prompt_id == jbId) = none
       ∨ prompts.find? (fun p => p.prompt_id == uwuId) = none) :
    ∃ e, runTemplate botId prompts content = .err e := by
  rcases h with he | hj | hu
  · exact ⟨noExpertErr, by simp [runTemplate, he]⟩
  · cases hfe : prompts.find? (fun p => p.prompt_id == expertId) with
    | none => exact ⟨noExpertErr, by simp [runTemplate, hfe]⟩
    | some pe => exact ⟨noJbErr, by simp [runTemplate, hfe, hj]⟩
  · cases hfe : prompts.find? (fun p => p.prompt_id == expertId) with
    | none => exact ⟨noExpertErr, by simp [runTemplate, hfe]⟩
    | some pe =>
      cases hfj : prompts.find? (fun p => p.prompt_id == jbId) with
      | none => exact ⟨noJbErr, by simp [runTemplate, hfe, hfj]⟩
      | some pj => exact ⟨noUwuErr, by simp [runTemplate, hfe, hfj, hu]⟩

theorem handle_message_needName (msg : IncomingMessage) (app : AppData)
    (registry : List Nat) (history : Option (List ChatDocument))
    (replyId : Option (List Char)) (env : Env)
    (hg : env.gptTokenOk = true)
    (htm : runTemplate app.bot_id app.all_prompts msg.content = .needName) :
    handle_message msg app registry history replyId env =
      ⟨[Effect.sendReply msg.channel_id needNameText msg.id,
        Effect.scheduleDelete msg.channel_id env.warnMsgId 5],
       registry, false, .ok⟩ := by
  simp [handle_message, hg, htm]

theorem handle_message_success (msg : IncomingMessage) (app : AppData)
    (registry : List Nat) (history : Option (List ChatDocument))
    (replyId : Option (List Char)) (env : Env) (t : List Char) (choice : Choice)
    (hg : env.gptTokenOk = true) (ht : env.transportOk = true)
    (hd : env.decodeOk = true)
    (htm : runTemplate app.bot_id app.all_prompts msg.content = .ok t)
    (hch : (env.response.choices).getLast? = some choice) :
    handle_message msg app registry history replyId env =
      ⟨[Effect.registryInsert msg.id, Effect.startKeepalive msg.channel_id,
        Effect.completionCall modelName (histMessages history ++ [⟨userRole, t⟩]),
        Effect.setStopFlag, Effect.registryRemove msg.id,
        Effect.sendReply msg.channel_id choice.message.content msg.id]
       ++ (if history.isNone then
             [Effect.insertDoc ⟨natToStr env.botMsgId,
               histMessages history ++ [⟨userRole, t⟩,
                 ⟨assistantRole, choice.message.content⟩]⟩]
           else [])
       ++ (match replyId with
           | some rid =>
             [Effect.updateDoc rid ⟨natToStr env.botMsgId,
               histMessages history ++ [⟨userRole, t⟩,
                 ⟨assistantRole, choice.message.content⟩]⟩]
           | none => []),
       (registry ++ [msg.id]).filter (fun i => i != msg.id), true, .ok⟩ := by
  simp [handle_message, hg, ht, hd, htm, hch]

/-- Claim C1: the claim states that a CONTINUATION pipeline performs an atomic
tryBegin on the referenced bot message id, holding that id in the in-flight
set for the whole pipeline.  The code does not: at the concrete continuation
event (incoming message id 2 replying to bot message id 1, empty in-flight
set, all snippets present, completion succeeding) the only membership check in
the trace is on id 1 (the referenced message), the only insertion is on id 2
(the incoming message), id 1 is never inserted at all, and the insertion
happens only after templating, directly before the completion call. -/
theorem c1_dedup_checks_and_inserts_different_ids :
    ((handle_event contEvent app5 [] store1 env0).effects.filter
        Effect.isRegistryCheck = [Effect.registryCheck 1 false])
    ∧ ((handle_event contEvent app5 [] store1 env0).effects.filter
        Effect.isRegistryInsert = [Effect.registryInsert 2])
    ∧ Effect.registryInsert 1 ∉ (handle_event contEvent app5 [] store1 env0).effects
    ∧ (handle_event contEvent app5 [] store1 env0).effects.take 2
        = [Effect.registryCheck 1 false, Effect.registryInsert 2] := by
  decide

/-- Claim C2: the claim states that on a transport-level completion failure
the pipeline sets the keepalive stop flag and removes the message id from the
in-flight set before propagating the error.  The code does not: on a NEW
pipeline (message id 2) whose completion call fails at transport level, the
error propagates while the stop flag is still false, id 2 is still in the
in-flight registry, no registryRemove or setStopFlag effect was emitted, and
no reply was sent.  (The decode-failure path does set the flag and remove the
id first, as the claim says.) -/
theorem c2_transport_failure_leaves_flag_and_registry :
    ((handle_message newEvent app5 [] none none envTransportFail).outcome
        = Outcome.error transportErr)
    ∧ (handle_message newEvent app5 [] none none envTransportFail).stopFlag = false
    ∧ (handle_message newEvent app5 [] none none envTransportFail).registry = [2]
    ∧ Effect.setStopFlag
        ∉ (handle_message newEvent app5 [] none none envTransportFail).effects
    ∧ Effect.registryRemove 2
        ∉ (handle_message newEvent app5 [] none none envTransportFail).effects
    ∧ (handle_message newEvent app5 [] none none envTransportFail).effects.filter
        Effect.isSend = [] := by
  decide

/-- Claim C3 counterexample: with the uwu snippet of the spec example loaded,
the input does NOT expand to the claimed text. -/
theorem c3_counterexample :
    runTemplate 5 promptsC3 ("!uwu \"Jane Doe\"".data)
      ≠ TemplateResult.ok ("Hi Jane Doe/Jane Doe/Jane Doe".data) := by
  decide

/-- Claim C3 (amended): the quoted multi-word name is NOT recovered in full;
only the last whitespace token with quotes stripped (`Doe`) is substituted for
the three placeholders, and the quoted argument remains in the message, so the
expansion is `Hi Doe/Doe/Doe "Jane Doe"`. -/
theorem c3_uwu_quoted_expansion :
    runTemplate 5 promptsC3 ("!uwu \"Jane Doe\"".data)
      = TemplateResult.ok ("Hi Doe/Doe/Doe \"Jane Doe\"".data) := by
  decide

/-- Claim C5 counterexample: an incoming message containing `!uwu` whose last
whitespace-split token (`b`) contains no quote character, for which the
pipeline nevertheless sends no warning and makes a completion call: the
comma-space removal merges the quoted token `"a",` into the last token before
the quote test runs. -/
theorem c5_counterexample :
    ((splitWs c5Event.content).getLast? = some ("b".data))
    ∧ containsSub quoteTok ("b".data) = false
    ∧ containsSub uwuTok c5Event.content = true
    ∧ (handle_message c5Event app5 [] none none env0).effects.filter
        Effect.isCompletionCall ≠ []
    ∧ Effect.sendReply 3 needNameText 2
        ∉ (handle_message c5Event app5 [] none none env0).effects := by
  decide

/-- Claim C4 counterexample: in the concrete continuation run (anchor id 1,
new bot reply id 9) the single update effect matches the original anchor id
`1` but its payload document carries id `9`, so the stored anchor id is NOT
left unchanged. -/
theorem c4_counterexample :
    ((handle_event contEvent app5 [] store1 env0).effects.filter
        Effect.isUpdateDoc
      = [Effect.updateDoc ("1".data)
          ⟨"9".data,
           [⟨userRole, "a".data⟩, ⟨assistantRole, "b".data⟩,
            ⟨userRole, "hello".data⟩, ⟨assistantRole, "ok".data⟩]⟩])
    ∧ ("9".data : List Char) ≠ ("1".data : List Char) := by
  decide

/-- Claim C4 (amended): every CONTINUATION pipeline that completes
successfully performs exactly one update, matched by the original anchor id,
whose payload replaces `messages` with the outgoing list (prior history, then
the user turn, then the assistant turn) AND replaces the stored id with the
id of the newly created bot reply message (it is not left unchanged); no
insert is performed. -/
theorem c4_continuation_update (msg : IncomingMessage) (app : AppData)
    (registry : List Nat) (h : List ChatDocument) (rid : List Char) (env : Env)
    (t : List Char) (choice : Choice)
    (hg : env.gptTokenOk = true) (ht : env.transportOk = true)
    (hd : env.decodeOk = true)
    (htm : runTemplate app.bot_id app.all_prompts msg.content
      = TemplateResult.ok t)
    (hch : (env.response.choices).getLast? = some choice) :
    ((handle_message msg app registry (some h) (some rid) env).effects.filter
        Effect.isUpdateDoc
      = [Effect.updateDoc rid
          ⟨natToStr env.botMsgId,
           (h.map ChatDocument.messages).flatten
             ++ [⟨userRole, t⟩, ⟨assistantRole, choice.message.content⟩]⟩])
    ∧ ((handle_message msg app registry (some h) (some rid) env).effects.filter
        Effect.isInsertDoc = [])
    ∧ (handle_message msg app registry (some h) (some rid) env).outcome
        = Outcome.ok := by
  rw [handle_message_success msg app registry (some h) (some rid) env t choice
    hg ht hd htm hch]
  simp [Effect.isUpdateDoc, Effect.isInsertDoc, histMessages]

/-- Witness for c4_continuation_update at the concrete continuation run. -/
theorem c4_witness :
    (runTemplate app5.bot_id app5.all_prompts contEvent.content
      = TemplateResult.ok ("hello".data))
    ∧ ((env0.response.choices).getLast? = some okChoice)
    ∧ (((handle_message contEvent app5 [] (some store1) (some ("1".data))
          env0).effects.filter Effect.isUpdateDoc
        = [Effect.updateDoc ("1".data)
            ⟨natToStr env0.botMsgId,
             (store1.map ChatDocument.messages).flatten
               ++ [⟨userRole, "hello".data⟩,
                   ⟨assistantRole, okChoice.message.content⟩]⟩])
      ∧ (((handle_message contEvent app5 [] (some store1) (some ("1".data))
            env0).effects.filter Effect.isInsertDoc) = [])
      ∧ (handle_message contEvent app5 [] (some store1) (some ("1".data))
          env0).outcome = Outcome.ok) :=
  ⟨by decide, by decide,
   c4_continuation_update contEvent app5 [] store1 ("1".data) env0
     ("hello".data) okChoice rfl rfl rfl (by decide) (by decide)⟩

/-- Claim C5 (amended): for every pipeline whose templated text (after
mention removal, comma-space removal and expert/jb expansion) contains `!uwu`
and whose last whitespace-split token of that templated text has no quote
character (that is, `runTemplate` lands on the warning path), the run sends
exactly one warning reply addressed to the original message, schedules its
deletion after the fixed 5-second delay, makes no completion call, performs
no store write, leaves the in-flight registry unchanged and returns without
error.  (The original claim, which tests the last token of the RAW incoming
text, fails: see the counterexample.) -/
theorem c5_warning_path (msg : IncomingMessage) (app : AppData)
    (registry : List Nat) (history : Option (List ChatDocument))
    (replyId : Option (List Char)) (env : Env)
    (hg : env.gptTokenOk = true)
    (htm : runTemplate app.bot_id app.all_prompts msg.content
      = TemplateResult.needName) :
    handle_message msg app registry history replyId env
      = ⟨[Effect.sendReply msg.channel_id needNameText msg.id,
          Effect.scheduleDelete msg.channel_id env.warnMsgId 5],
         registry, false, Outcome.ok⟩ :=
  handle_message_needName msg app registry history replyId env hg htm

/-- Witness for c5_warning_path at the concrete malformed-uwu event. -/
theorem c5_witness :
    (runTemplate app5.bot_id app5.all_prompts uwuBadEvent.content
      = TemplateResult.needName)
    ∧ handle_message uwuBadEvent app5 [] none none env0
      = ⟨[Effect.sendReply 3 needNameText 2, Effect.scheduleDelete 3 7 5],
         [], false, Outcome.ok⟩ :=
  ⟨by decide,
   c5_warning_path uwuBadEvent app5 [] none none env0 rfl (by decide)⟩

/-- Claim C6: every NEW pipeline (no history, no reply id) that completes
successfully performs exactly one insert and no update, and the inserted
document has id equal to the id of the newly created bot reply message and
messages equal to the two-element list of the templated user turn and the
assistant turn. -/
theorem c6_new_pipeline_insert (msg : IncomingMessage) (app : AppData)
    (registry : List Nat) (env : Env) (t : List Char) (choice : Choice)
    (hg : env.gptTokenOk = true) (ht : env.transportOk = true)
    (hd : env.decodeOk = true)
    (htm : runTemplate app.bot_id app.all_prompts msg.content
      = TemplateResult.ok t)
    (hch : (env.response.choices).getLast? = some choice) :
    ((handle_message msg app registry none none env).effects.filter
        Effect.isInsertDoc
      = [Effect.insertDoc
          ⟨natToStr env.botMsgId,
           [⟨userRole, t⟩, ⟨assistantRole, choice.message.content⟩]⟩])
    ∧ ((handle_message msg app registry none none env).effects.filter
        Effect.isUpdateDoc = [])
    ∧ (handle_message msg app registry none none env).outcome = Outcome.ok := by
  rw [handle_message_success msg app registry none none env t choice
    hg ht hd htm hch]
  simp [Effect.isInsertDoc, Effect.isUpdateDoc, histMessages]

/-- Witness for c6_new_pipeline_insert at the concrete NEW event. -/
theorem c6_witness :
    (runTemplate app5.bot_id app5.all_prompts newEvent.content
      = TemplateResult.ok ("hi".data))
    ∧ (((handle_message newEvent app5 [] none none env0).effects.filter
          Effect.isInsertDoc
        = [Effect.insertDoc
            ⟨natToStr env0.botMsgId,
             [⟨userRole, "hi".data⟩,
              ⟨assistantRole, okChoice.message.content⟩]⟩])
      ∧ ((handle_message newEvent app5 [] none none env0).effects.filter
          Effect.isUpdateDoc = [])
      ∧ (handle_message newEvent app5 [] none none env0).outcome
          = Outcome.ok) :=
  ⟨by decide,
   c6_new_pipeline_insert newEvent app5 [] env0 ("hi".data) okChoice
     rfl rfl rfl (by decide) (by decide)⟩

/-- Claim C7: with snippets expert = `E` and jb = `J` loaded (and the uwu
snippet present, as the code requires it unconditionally), templating
`!expert !jb` yields `E J`: `!expert` is replaced by the expert snippet text
first, then `!jb` by the jb snippet text, each by literal substring
replacement. -/
theorem c7_expert_then_jb (botId : Nat) (prompts : List PromptDocument)
    (pe pj pu : PromptDocument)
    (he : prompts.find? (fun p => p.prompt_id == expertId) = some pe)
    (hpe : pe.prompt = "E".data)
    (hj : prompts.find? (fun p => p.prompt_id == jbId) = some pj)
    (hpj : pj.prompt = "J".data)
    (hu : prompts.find? (fun p => p.prompt_id == uwuId) = some pu) :
    runTemplate botId prompts ("!expert !jb".data)
      = TemplateResult.ok ("E J".data) := by
  have hm : replaceAll (mentionTok botId) [] ("!expert !jb".data)
      = "!expert !jb".data :=
    replaceAll_of_not_contains _ _ _
      (not_containsSub_of_head_notMem '<' _ _ (by decide))
  have h1 : replaceAll jbTok ("J".data)
      (replaceAll expertTok ("E".data)
        (replaceAll commaSpaceTok [] ("!expert !jb".data)))
      = "E J".data := by decide
  have h2 : containsSub uwuTok ("E J".data) = false := by decide
  simp only [runTemplate, hm, he, hj, hu, hpe, hpj, h1, h2,
    Bool.false_eq_true, if_false]

/-- Witness for c7_expert_then_jb at the concrete snapshot prompts3. -/
theorem c7_witness :
    (prompts3.find? (fun p => p.prompt_id == expertId)
      = some ⟨expertId, "E".data⟩)
    ∧ (prompts3.find? (fun p => p.prompt_id == jbId) = some ⟨jbId, "J".data⟩)
    ∧ (prompts3.find? (fun p => p.prompt_id == uwuId) = some ⟨uwuId, "U".data⟩)
    ∧ runTemplate 5 prompts3 ("!expert !jb".data)
        = TemplateResult.ok ("E J".data) :=
  ⟨by decide, by decide, by decide,
   c7_expert_then_jb 5 prompts3 ⟨expertId, "E".data⟩ ⟨jbId, "J".data⟩
     ⟨uwuId, "U".data⟩ (by decide) rfl (by decide) rfl (by decide)⟩

/-- Claim C8 counterexample: the input `!exp, ert` contains no macro token
and no mention token, yet templating it does not return the text with only
the comma-space removed: the removal creates the token `!expert`, which is
then expanded to the expert snippet text `E`. -/
theorem c8_counterexample :
    containsSub expertTok ("!exp, ert".data) = false
    ∧ containsSub jbTok ("!exp, ert".data) = false
    ∧ containsSub uwuTok ("!exp, ert".data) = false
    ∧ containsSub (mentionTok 5) ("!exp, ert".data) = false
    ∧ replaceAll commaSpaceTok [] ("!exp, ert".data) = "!expert".data
    ∧ runTemplate 5 prompts3 ("!exp, ert".data)
        ≠ TemplateResult.ok ("!expert".data)
    ∧ runTemplate 5 prompts3 ("!exp, ert".data)
        = TemplateResult.ok ("E".data) := by
  decide

/-- Claim C8 (amended): for every input text containing no bot-mention token
and such that the text AFTER removal of every comma-space substring contains
none of the macro tokens `!expert`, `!jb`, `!uwu`, the template engine
returns the text unchanged except for that comma-space removal.  (The
original claim, which requires macro-freedom only of the raw text, fails
when the removal creates a macro token: see the counterexample.) -/
theorem c8_no_macro_template (botId : Nat) (prompts : List PromptDocument)
    (pe pj pu : PromptDocument) (content : List Char)
    (he : prompts.find? (fun p => p.prompt_id == expertId) = some pe)
    (hj : prompts.find? (fun p => p.prompt_id == jbId) = some pj)
    (hu : prompts.find? (fun p => p.prompt_id == uwuId) = some pu)
    (hment : containsSub (mentionTok botId) content = false)
    (hx : containsSub expertTok (replaceAll commaSpaceTok [] content) = false)
    (hb : containsSub jbTok (replaceAll commaSpaceTok [] content) = false)
    (hw : containsSub uwuTok (replaceAll commaSpaceTok [] content) = false) :
    runTemplate botId prompts content
      = TemplateResult.ok (replaceAll commaSpaceTok [] content) := by
  simp only [runTemplate, he, hj, hu,
    replaceAll_of_not_contains (mentionTok botId) [] content hment,
    replaceAll_of_not_contains expertTok pe.prompt
      (replaceAll commaSpaceTok [] content) hx,
    replaceAll_of_not_contains jbTok pj.prompt
      (replaceAll commaSpaceTok [] content) hb,
    hw, Bool.false_eq_true, if_false]

/-- Witness for c8_no_macro_template at a concrete macro-free input. -/
theorem c8_witness :
    containsSub (mentionTok 5) ("nice, text".data) = false
    ∧ containsSub expertTok (replaceAll commaSpaceTok [] ("nice, text".data))
        = false
    ∧ runTemplate 5 prompts3 ("nice, text".data)
        = TemplateResult.ok (replaceAll commaSpaceTok [] ("nice, text".data)) :=
  ⟨by decide, by decide,
   c8_no_macro_template 5 prompts3 ⟨expertId, "E".data⟩ ⟨jbId, "J".data⟩
     ⟨uwuId, "U".data⟩ ("nice, text".data) (by decide) (by decide) (by decide)
     (by decide) (by decide) (by decide) (by decide)⟩

/-- Claim C9: for every pipeline, NEW or CONTINUATION, if any of the three
required prompt snippets (expert, jb, uwu) is absent from the loaded
snapshot, `handle_message` returns an error having emitted no effect at all:
no completion call, no reply, no store write, and the in-flight registry is
exactly as it was (in particular it has no entry for the message, whose
insertion would only have happened later). -/
theorem c9_missing_snippet_aborts (msg : IncomingMessage) (app : AppData)
    (registry : List Nat) (history : Option (List ChatDocument))
    (replyId : Option (List Char)) (env : Env)
    (h : app.all_prompts.find? (fun p => p.prompt_id == expertId) = none
       ∨ app.all_prompts.find? (fun p => p.prompt_id == jbId) = none
       ∨ app.all_prompts.find? (fun p => p.prompt_id == uwuId) = none) :
    ∃ e, handle_message msg app registry history replyId env
      = ⟨[], registry, false, Outcome.error e⟩ := by
  cases hg : env.gptTokenOk with
  | false => exact ⟨gptTokenErr, by simp [handle_message, hg]⟩
  | true =>
    obtain ⟨e, he⟩ :=
      runTemplate_missing_prompt app.bot_id app.all_prompts msg.content h
    exact ⟨e, by simp [handle_message, hg, he]⟩

/-- Witness for c9_missing_snippet_aborts: snapshot missing the uwu snippet,
a message using no macro at all. -/
theorem c9_witness :
    (appNoUwu.all_prompts.find? (fun p => p.prompt_id == uwuId) = none)
    ∧ ∃ e, handle_message newEvent appNoUwu [] none none env0
        = ⟨[], [], false, Outcome.error e⟩ :=
  ⟨by decide,
   c9_missing_snippet_aborts newEvent appNoUwu [] none none env0
     (Or.inr (Or.inr (by decide)))⟩

/-- Claim C10: in the quoted-uwu expansion path the substituted name is
exactly the last whitespace-split token of the templated message with every
quote character removed (the re-split and re-join around it is the identity),
and therefore the name contains no whitespace character and no quote
character. -/
theorem c10_uwu_name_shape (t lastArg : List Char)
    (h : (splitWs t).getLast? = some lastArg) :
    uwuName lastArg = replaceAll quoteTok [] lastArg
    ∧ (∀ c ∈ uwuName lastArg, isWs c = false)
    ∧ containsSub quoteTok (uwuName lastArg) = false := by
  have htok : ∀ c ∈ lastArg, isWs c = false :=
    no_ws_of_mem_splitWs t lastArg (List.mem_of_getLast?_eq_some h)
  have heq := uwuName_eq_strip lastArg htok
  refine ⟨heq, ?_, ?_⟩
  · intro c hc
    rw [heq] at hc
    exact htok c (mem_of_mem_replaceAll_nil _ _ _ hc)
  · rw [heq]
    exact containsSub_singleton_eq_false _ _
      (fun c hc => ne_of_mem_replaceGo_quote _ lastArg.length lastArg
        (Nat.le_refl _) c hc)

/-- Witness for c10_uwu_name_shape at the spec example input. -/
theorem c10_witness :
    ((splitWs ("!uwu \"Jane Doe\"".data)).getLast? = some ("Doe\"".data))
    ∧ (uwuName ("Doe\"".data) = replaceAll quoteTok [] ("Doe\"".data)
      ∧ (∀ c ∈ uwuName ("Doe\"".data), isWs c = false)
      ∧ containsSub quoteTok (uwuName ("Doe\"".data)) = false) :=
  ⟨by decide,
   c10_uwu_name_shape ("!uwu \"Jane Doe\"".data) ("Doe\"".data) (by decide)⟩
